import Mathlib

/-
  Verification of the mcp-wordpress gateway (src/server.ts).

  Shallow embedding of the pure decision logic of the server: JavaScript
  truthiness on optional strings, the session-id header extraction, the
  auth middleware, the Express route handlers for /healthz, /, and /mcp,
  the session-table mutation callbacks, the shutdown coordinator's state
  machine, the HTTP cleanup sequence, and the tool-handler wrapper.
  Each definition mirrors the corresponding place in src/server.ts,
  referenced by line numbers in comments.
-/

namespace McpWp

/-- JavaScript truthiness of a `string | undefined` value: `undefined` and
the empty string are falsy, every other string is truthy.  Used wherever
the source writes `if (x)` on such a value. -/
def jsTruthyOptStr : Option String → Bool
  | none => false
  | some s => !(s == "")

/-- A Node HTTP header value as seen by `req.headers[...]`:
either a single string or an array of strings. -/
inductive HeaderValue where
  | str (s : String)
  | arr (l : List String)
deriving Repr, DecidableEq

/-- `getSessionId` (server.ts lines 62-67):
`if (!value) return undefined; return Array.isArray(value) ? value[0] : value;`
Note `!value` is JS truthiness: `undefined` and `""` are falsy, while every
array (even an empty one) is truthy; `value[0]` of an empty array is
`undefined`. -/
def getSessionId : Option HeaderValue → Option String
  | none => none
  | some (.str s) => if s = "" then none else some s
  | some (.arr l) => l.head?

/-- One session-table entry: the pair (McpServer, StreamableHTTPServerTransport)
created by `createSession` (server.ts lines 57-60, 122-153).  The two handles
are opaque to the routing logic; they are modelled as numeric identifiers. -/
structure SessionEntry where
  serverId : Nat
  transportId : Nat
deriving Repr, DecidableEq

/-- The `sessions` map (server.ts line 120), modelled as an insertion-ordered
association list, matching JS `Map` semantics. -/
abbrev SessionTable := List (String × SessionEntry)

/-- `Map.get` -/
def mapGet (t : SessionTable) (k : String) : Option SessionEntry :=
  (t.find? (fun p => p.1 == k)).map Prod.snd

/-- `Map.set`: replaces the value in place when the key exists, otherwise
appends the new pair (JS `Map` preserves insertion order). -/
def mapSet (t : SessionTable) (k : String) (v : SessionEntry) : SessionTable :=
  if t.any (fun p => p.1 == k) then
    t.map (fun p => if p.1 == k then (k, v) else p)
  else
    t ++ [(k, v)]

/-- `Map.delete` -/
def mapDelete (t : SessionTable) (k : String) : SessionTable :=
  t.filter (fun p => !(p.1 == k))

/-- The JSON-RPC-shaped error envelope
`{ jsonrpc: '2.0', error: { code, message }, id: null }` used by every JSON
error response in server.ts.  `idIsNull` records the literal `id: null`. -/
structure RpcErrorEnvelope where
  jsonrpc : String
  code : Int
  message : String
  idIsNull : Bool
deriving Repr, DecidableEq

/-- A response body produced directly by the router: either plain text
(`res.send('...')`) or a JSON-RPC error envelope (`res.json({...})`). -/
inductive RespBody where
  | text (s : String)
  | rpcError (e : RpcErrorEnvelope)
deriving Repr, DecidableEq

/-- Outcome of the Express layer for one request: either the router answers
itself with a status and body, or it forwards to an existing session's
`transport.handleRequest`, or it creates a fresh session (connect +
handleRequest on it, server.ts lines 205-207). -/
inductive RouterResult where
  | respond (status : Nat) (body : RespBody)
  | forward (sid : String)
  | forwardNew
deriving Repr, DecidableEq

inductive Method where
  | GET
  | POST
  | DELETE
deriving Repr, DecidableEq

/-- The only property of the request body the router consults is whether the
SDK's `isInitializeRequest` recognizer (an external collaborator) accepts
it (server.ts line 193). -/
structure McpBody where
  isInitReq : Bool
deriving Repr, DecidableEq

structure HttpRequest where
  method : Method
  path : String
  authorization : Option String
  mcpSessionId : Option HeaderValue
  body : McpBody
deriving Repr, DecidableEq

/-- POST /mcp, no-session branch (server.ts lines 193-207): a body that is
not an initialize request is rejected with 400 / -32600; otherwise a new
session is created and the request forwarded to it.  The table is not
touched here: insertion happens only later via the transport's
`onsessioninitialized` callback (see `sessionStep`). -/
def postMcpNoSession (table : SessionTable) (req : HttpRequest) :
    RouterResult × SessionTable :=
  if !req.body.isInitReq then
    (.respond 400 (.rpcError ⟨"2.0", -32600,
      "Initialization request required before other operations", true⟩), table)
  else
    (.forwardNew, table)

/-- POST /mcp handler (server.ts lines 171-207).  `if (sessionId)` is JS
truthiness, so an empty-string id falls through to the no-session branch. -/
def postMcp (table : SessionTable) (req : HttpRequest) :
    RouterResult × SessionTable :=
  match getSessionId req.mcpSessionId with
  | some sid =>
    if sid = "" then postMcpNoSession table req
    else
      match mapGet table sid with
      | none =>
        (.respond 404 (.rpcError ⟨"2.0", -32000, "Unknown session ID", true⟩),
         table)
      | some _ => (.forward sid, table)
  | none => postMcpNoSession table req

/-- GET /mcp handler (server.ts lines 223-244): `if (!sessionId)` rejects
absent or empty ids with plain text 400; an unknown id gets a plain-text
404 `'Unknown session ID'` (`res.send`, not the JSON envelope). -/
def getMcp (table : SessionTable) (req : HttpRequest) :
    RouterResult × SessionTable :=
  match getSessionId req.mcpSessionId with
  | none => (.respond 400 (.text "Missing session ID"), table)
  | some sid =>
    if sid = "" then (.respond 400 (.text "Missing session ID"), table)
    else
      match mapGet table sid with
      | none => (.respond 404 (.text "Unknown session ID"), table)
      | some _ => (.forward sid, table)

/-- DELETE /mcp handler (server.ts lines 246-267), textually identical to
the GET /mcp handler. -/
def deleteMcp (table : SessionTable) (req : HttpRequest) :
    RouterResult × SessionTable :=
  match getSessionId req.mcpSessionId with
  | none => (.respond 400 (.text "Missing session ID"), table)
  | some sid =>
    if sid = "" then (.respond 400 (.text "Missing session ID"), table)
    else
      match mapGet table sid with
      | none => (.respond 404 (.text "Unknown session ID"), table)
      | some _ => (.forward sid, table)

/-- The route table (server.ts lines 163-267): GET /healthz and GET / answer
200 'ok'; /mcp dispatches by method.  Anything else falls to Express's
default 404. -/
def routeRequest (table : SessionTable) (req : HttpRequest) :
    RouterResult × SessionTable :=
  match req.method, req.path with
  | .GET, "/healthz" => (.respond 200 (.text "ok"), table)
  | .GET, "/" => (.respond 200 (.text "ok"), table)
  | .POST, "/mcp" => postMcp table req
  | .GET, "/mcp" => getMcp table req
  | .DELETE, "/mcp" => deleteMcp table req
  | _, _ => (.respond 404 (.text "Not Found"), table)

/-- The environment variables the server reads. -/
structure Env where
  PORT : Option String
  MCP_PORT : Option String
  MCP_API_TOKEN : Option String
deriving Repr, DecidableEq

/-- The whole Express app for one request (server.ts lines 99-267):
`const requiredToken = process.env.MCP_API_TOKEN; if (requiredToken) {...}`
installs the auth middleware ahead of every route (there is no allow-list);
`if (requiredToken)` is JS truthiness, so an empty-string token installs
nothing.  The middleware passes the request to the router exactly when
`req.headers.authorization === 'Bearer ' + requiredToken`. -/
def handleApp (env : Env) (table : SessionTable) (req : HttpRequest) :
    RouterResult × SessionTable :=
  match env.MCP_API_TOKEN with
  | some t =>
    if t = "" then routeRequest table req
    else if req.authorization = some ("Bearer " ++ t) then
      routeRequest table req
    else
      (.respond 401 (.rpcError ⟨"2.0", -32001, "Unauthorized", true⟩), table)
  | none => routeRequest table req

/-- The startup warning (server.ts line 117) is emitted exactly when the
middleware is not installed, i.e. when `MCP_API_TOKEN` is unset or empty. -/
def authWarning (env : Env) : Bool :=
  !(jsTruthyOptStr env.MCP_API_TOKEN)

inductive TransportMode where
  | http
  | stdio
deriving Repr, DecidableEq

/-- Transport selection in `main` (server.ts lines 363-369):
`if (process.env.PORT) { startHttpServer } else { startStdioServer }` —
only `PORT` is consulted, via JS truthiness. -/
def selectTransportMode (env : Env) : TransportMode :=
  if jsTruthyOptStr env.PORT then .http else .stdio

/-- Where the HTTP port number comes from (server.ts line 91):
`Number(process.env.PORT ?? process.env.MCP_PORT ?? 8080)` — `??` is
nullish coalescing, falling through only on `undefined`. -/
inductive PortSource where
  | fromPORT (s : String)
  | fromMCPPORT (s : String)
  | defaultPort
deriving Repr, DecidableEq

def httpPortSource (env : Env) : PortSource :=
  match env.PORT with
  | some s => .fromPORT s
  | none =>
    match env.MCP_PORT with
    | some s => .fromMCPPORT s
    | none => .defaultPort

/-- The four places in server.ts that mutate the `sessions` map:
`onsessioninitialized` (lines 126-131, the only `sessions.set`),
`onsessionclosed` (lines 132-137), `transport.onclose` (lines 140-144,
reading `transport.sessionId`), and the per-session delete in the shutdown
cleanup loop (line 293).  The first three guard with `if (sessionId)`
(JS truthiness on a possibly-undefined string). -/
inductive SessionEvent where
  | inited (sid : Option String) (entry : SessionEntry)
  | closedCb (sid : Option String)
  | transportOnClose (sid : Option String)
  | shutdownDelete (sid : String)
deriving Repr, DecidableEq

def sessionStep (t : SessionTable) : SessionEvent → SessionTable
  | .inited sid entry =>
    match sid with
    | some s => if s = "" then t else mapSet t s entry
    | none => t
  | .closedCb sid =>
    match sid with
    | some s => if s = "" then t else mapDelete t s
    | none => t
  | .transportOnClose sid =>
    match sid with
    | some s => if s = "" then t else mapDelete t s
    | none => t
  | .shutdownDelete s => mapDelete t s

def runSessionEvents (t : SessionTable) (es : List SessionEvent) : SessionTable :=
  es.foldl sessionStep t

/-- Observable steps of `setupProcessHandlers`'s `shutdown` routine
(server.ts lines 308-345) under Node's cooperative scheduling: a trigger
(signal or fault) invokes `shutdown(code)`, and `cleanupDone` marks the
completion of the awaited `cleanup()` call, after which the `finally`
block runs `process.exit` with the code of the call that started cleanup. -/
inductive ShutdownEvent where
  | trigger (code : Nat)
  | cleanupDone
deriving Repr, DecidableEq

structure ShutdownState where
  shuttingDown : Bool
  cleanupRuns : Nat
  pendingExit : Option Nat
  exited : Option Nat
deriving Repr, DecidableEq

def shutdownInit : ShutdownState :=
  { shuttingDown := false, cleanupRuns := 0, pendingExit := none, exited := none }

/-- One step of the shutdown machine.  Once the process has exited nothing
more happens.  A trigger while `shuttingDown` is already set executes
`process.exit(exitCode)` with the CURRENT call's code (server.ts lines
312-314).  The first trigger sets the flag, starts cleanup, and records
its code for the `finally` exit. -/
def shutdownStep (s : ShutdownState) : ShutdownEvent → ShutdownState
  | .trigger c =>
    if s.exited.isSome then s
    else if s.shuttingDown then { s with exited := some c }
    else { s with shuttingDown := true, cleanupRuns := s.cleanupRuns + 1,
                  pendingExit := some c }
  | .cleanupDone =>
    if s.exited.isSome then s
    else
      match s.pendingExit with
      | some c => { s with exited := some c }
      | none => s

def runShutdown (es : List ShutdownEvent) : ShutdownState :=
  es.foldl shutdownStep shutdownInit

/-- The four registered shutdown triggers (server.ts lines 326-344). -/
inductive TriggerKind where
  | sigterm
  | sigint
  | uncaughtFault
  | unhandledReject
deriving Repr, DecidableEq

/-- The exit code each trigger passes to `shutdown` (server.ts lines
326-344): signals pass 0, faults pass 1. -/
def triggerExitCode : TriggerKind → Nat
  | .sigterm => 0
  | .sigint => 0
  | .uncaughtFault => 1
  | .unhandledReject => 1

/-- Close attempts made by the HTTP cleanup closure (server.ts lines
277-305).  `ok` records whether the attempt succeeded; a failed attempt is
caught and logged by its own try/catch. -/
inductive CloseAction where
  | closeTransport (sid : String) (ok : Bool)
  | closeEngine (sid : String) (ok : Bool)
  | closeListener
deriving Repr, DecidableEq

/-- The sequence of close attempts of the HTTP cleanup closure: for each
session (in table order) its transport close then its server close, each
in its own try/catch (`tOk`/`sOk` say whether the respective close throws),
then the HTTP listener close.  Failures never remove later attempts. -/
def httpCleanupActions (t : SessionTable) (tOk sOk : String → Bool) :
    List CloseAction :=
  (t.flatMap fun p =>
    [CloseAction.closeTransport p.1 (tOk p.1),
     CloseAction.closeEngine p.1 (sOk p.1)]) ++ [CloseAction.closeListener]

/-- The table as left by the cleanup loop: `sessions.delete(sessionId)` is
executed for every entry of the table, in order (server.ts line 293). -/
def httpCleanupTable (t : SessionTable) : SessionTable :=
  (t.map Prod.fst).foldl mapDelete t

/-- One content item as the wrapped tool handler sees it (server.ts
line 42 annotates items as `{ type: string; text: string }`). -/
structure ToolContentItem where
  type : String
  text : String
deriving Repr, DecidableEq

structure ToolCallResult where
  content : List ToolContentItem
  isError : Bool
deriving Repr, DecidableEq

/-- Result shape produced by `wrappedHandler` (server.ts lines 39-48): every
content item is spread and its `type` overridden with `'text'`; `isError`
is passed through unchanged. -/
def wrappedHandlerResult (r : ToolCallResult) : ToolCallResult :=
  { content := r.content.map (fun item => { item with type := "text" }),
    isError := r.isError }

/-! ## Claim C1 — auth gate and the health endpoints -/

/-- Claim C1 counterexample: with MCP_API_TOKEN set to "secret", a GET
/healthz request carrying no Authorization header is answered 401 with the
-32001 envelope, not 200 — the auth middleware is installed ahead of every
route and has no allow-list. -/
theorem healthz_requires_auth_cex :
    handleApp ⟨some "8080", none, some "secret"⟩ []
        ⟨.GET, "/healthz", none, none, ⟨false⟩⟩
      = (.respond 401 (.rpcError ⟨"2.0", -32001, "Unauthorized", true⟩), []) ∧
    handleApp ⟨some "8080", none, some "secret"⟩ []
        ⟨.GET, "/healthz", none, none, ⟨false⟩⟩
      ≠ (.respond 200 (.text "ok"), []) := by
  exact ⟨rfl, by decide⟩

/-- Claim C1 (amended): when MCP_API_TOKEN is set to a non-empty token there
is no allow-list: every request that does not carry the exact bearer token
— GET /healthz and GET / included — is short-circuited with 401 and the
-32001 envelope before the router; a request that does carry it reaches the
router, and GET /healthz then answers 200 with plain body "ok". -/
theorem authGate_no_allowlist (env : Env) (t : String) (table : SessionTable)
    (req : HttpRequest) (htok : env.MCP_API_TOKEN = some t) (hne : t ≠ "") :
    (req.authorization ≠ some ("Bearer " ++ t) →
      handleApp env table req
        = (.respond 401 (.rpcError ⟨"2.0", -32001, "Unauthorized", true⟩),
           table)) ∧
    (req.authorization = some ("Bearer " ++ t) →
      handleApp env table req = routeRequest table req) ∧
    (req.authorization = some ("Bearer " ++ t) → req.method = .GET →
      req.path = "/healthz" →
      handleApp env table req = (.respond 200 (.text "ok"), table)) := by
  refine ⟨?_, ?_, ?_⟩
  · intro hauth
    simp [handleApp, htok, hne, hauth]
  · intro hauth
    simp [handleApp, htok, hne, hauth]
  · intro hauth hm hp
    simp [handleApp, htok, hne, hauth, routeRequest, hm, hp]

/-- Witness for `authGate_no_allowlist` at a concrete environment and
request. -/
theorem authGate_no_allowlist_witness :
    handleApp ⟨none, none, some "secret"⟩ []
        ⟨.GET, "/healthz", some "Bearer secret", none, ⟨false⟩⟩
      = (.respond 200 (.text "ok"), []) :=
  (authGate_no_allowlist ⟨none, none, some "secret"⟩ "secret" []
      ⟨.GET, "/healthz", some "Bearer secret", none, ⟨false⟩⟩
      rfl (by decide)).2.2 (by decide) rfl rfl

/-! ## Claim C2 — unset versus empty-string credential -/

/-- Claim C2 counterexample: with MCP_API_TOKEN set to the empty string the
gate is NOT enforced — a POST /mcp request without any Authorization header
reaches the router (and gets the router's 400, not 401 with -32001) — and
startup warning IS emitted.  `if (requiredToken)` is a JS truthiness test,
so an empty-string token behaves like an unset one. -/
theorem empty_token_gate_cex :
    handleApp ⟨none, none, some ""⟩ [] ⟨.POST, "/mcp", none, none, ⟨false⟩⟩
      = (.respond 400 (.rpcError ⟨"2.0", -32600,
          "Initialization request required before other operations", true⟩),
         []) ∧
    authWarning ⟨none, none, some ""⟩ = true := by
  exact ⟨rfl, rfl⟩

/-- Claim C2 (amended): the gate is a no-op, with the startup warning, both
when MCP_API_TOKEN is unset and when it is the empty string; only a
non-empty token installs the gate (and then the warning is not emitted). -/
theorem authGate_unset_or_empty_noop (env : Env) (table : SessionTable)
    (req : HttpRequest)
    (h : env.MCP_API_TOKEN = none ∨ env.MCP_API_TOKEN = some "") :
    (handleApp env table req = routeRequest table req ∧
     authWarning env = true) ∧
    (∀ t, env.MCP_API_TOKEN = some t → t ≠ "" → authWarning env = false) := by
  constructor
  · rcases h with h | h <;>
      simp [handleApp, authWarning, jsTruthyOptStr, h]
  · intro t ht hne
    rcases h with h | h <;> rw [h] at ht
    · cases ht
    · cases ht
      exact absurd rfl hne

/-- Witness for `authGate_unset_or_empty_noop` at a concrete environment
with an empty-string token. -/
theorem authGate_unset_or_empty_noop_witness :
    handleApp ⟨none, none, some ""⟩ [] ⟨.GET, "/healthz", none, none, ⟨false⟩⟩
        = routeRequest [] ⟨.GET, "/healthz", none, none, ⟨false⟩⟩ ∧
      authWarning ⟨none, none, some ""⟩ = true :=
  (authGate_unset_or_empty_noop ⟨none, none, some ""⟩ []
      ⟨.GET, "/healthz", none, none, ⟨false⟩⟩ (Or.inr rfl)).1

/-! ## Claim C3 — transport mode selection -/

/-- Claim C3 counterexample: with MCP_PORT present ("9090") but PORT unset,
`main` starts the stdio transport, not HTTP — only `process.env.PORT` is
consulted at the selection point. -/
theorem mcpPort_only_selects_stdio_cex :
    selectTransportMode ⟨none, some "9090", none⟩ = .stdio ∧
    selectTransportMode ⟨none, some "9090", none⟩ ≠ .http := by decide

/-- Claim C3 (amended): HTTP transport mode is selected exactly when PORT is
set to a non-empty string; when PORT is absent the stdio transport starts,
regardless of MCP_PORT.  MCP_PORT only serves as the port-number fallback
once HTTP mode is already running: it is consulted only when PORT is
absent. -/
theorem transport_selection (env : Env) :
    (selectTransportMode env = .http ↔ jsTruthyOptStr env.PORT = true) ∧
    (env.PORT = none → selectTransportMode env = .stdio) ∧
    (∀ s, httpPortSource env = .fromMCPPORT s →
      env.PORT = none ∧ env.MCP_PORT = some s) := by
  refine ⟨?_, ?_, ?_⟩
  · by_cases h : jsTruthyOptStr env.PORT <;> simp [selectTransportMode, h]
  · intro h
    simp [selectTransportMode, jsTruthyOptStr, h]
  · intro s h
    unfold httpPortSource at h
    cases hP : env.PORT with
    | some p => rw [hP] at h; cases h
    | none =>
      rw [hP] at h
      cases hM : env.MCP_PORT with
      | some m =>
        rw [hM] at h; injection h with h1; subst h1; exact ⟨rfl, rfl⟩
      | none => rw [hM] at h; cases h

/-- Witness for `transport_selection` at a concrete environment where only
MCP_PORT is present. -/
theorem transport_selection_witness :
    (⟨none, some "9090", none⟩ : Env).PORT = none ∧
      (⟨none, some "9090", none⟩ : Env).MCP_PORT = some "9090" :=
  (transport_selection ⟨none, some "9090", none⟩).2.2 "9090" rfl

/-! ## Claim C4 — unknown-session rejections -/

/-- Claim C4 counterexample: a GET /mcp request bearing the never-created
session id "abc" is answered 404 with the plain-text body
"Unknown session ID" (`res.send`), not with the JSON-RPC -32000 envelope
the claim asserts for all three methods. -/
theorem unknown_session_envelope_cex :
    (getMcp [] ⟨.GET, "/mcp", none, some (.str "abc"), ⟨false⟩⟩).1
      = .respond 404 (.text "Unknown session ID") ∧
    (getMcp [] ⟨.GET, "/mcp", none, some (.str "abc"), ⟨false⟩⟩).1
      ≠ .respond 404 (.rpcError ⟨"2.0", -32000, "Unknown session ID", true⟩)
    := by decide

/-- Claim C4 (amended): for every request bearing a session id absent from
the table, the response is HTTP 404 and the table is unchanged; POST /mcp
carries the JSON-RPC envelope with code -32000 and id null, while GET /mcp
and DELETE /mcp carry the plain-text body "Unknown session ID". -/
theorem unknown_session_rejections (table : SessionTable) (sid : String)
    (req : HttpRequest) (hsid : req.mcpSessionId = some (.str sid))
    (hne : sid ≠ "") (habs : mapGet table sid = none) :
    postMcp table req
      = (.respond 404 (.rpcError ⟨"2.0", -32000, "Unknown session ID", true⟩),
         table) ∧
    getMcp table req = (.respond 404 (.text "Unknown session ID"), table) ∧
    deleteMcp table req = (.respond 404 (.text "Unknown session ID"), table)
    := by
  refine ⟨?_, ?_, ?_⟩ <;>
    simp [postMcp, getMcp, deleteMcp, getSessionId, hsid, hne, habs]

/-- Witness for `unknown_session_rejections` on the empty table and session
id "abc". -/
theorem unknown_session_rejections_witness :
    postMcp [] ⟨.POST, "/mcp", none, some (.str "abc"), ⟨false⟩⟩
      = (.respond 404 (.rpcError ⟨"2.0", -32000, "Unknown session ID", true⟩),
         []) :=
  (unknown_session_rejections [] "abc"
      ⟨.POST, "/mcp", none, some (.str "abc"), ⟨false⟩⟩
      rfl (by decide) rfl).1

/-! ## Claim C8 — non-initialize request without a session id -/

/-- Claim C8: a POST /mcp request with no Mcp-Session-Id header and a body
the initialize-request recognizer rejects is answered 400 with the -32600
envelope, and the session table is returned unchanged. -/
theorem post_no_session_non_init_rejected (table : SessionTable)
    (req : HttpRequest) (hdr : req.mcpSessionId = none)
    (hbody : req.body.isInitReq = false) :
    postMcp table req
      = (.respond 400 (.rpcError ⟨"2.0", -32600,
          "Initialization request required before other operations", true⟩),
         table) := by
  simp [postMcp, getSessionId, hdr, postMcpNoSession, hbody]

/-- Witness for `post_no_session_non_init_rejected` on a concrete table and
request. -/
theorem post_no_session_non_init_rejected_witness :
    postMcp [("live", ⟨1, 2⟩)] ⟨.POST, "/mcp", none, none, ⟨false⟩⟩
      = (.respond 400 (.rpcError ⟨"2.0", -32600,
          "Initialization request required before other operations", true⟩),
         [("live", ⟨1, 2⟩)]) :=
  post_no_session_non_init_rejected [("live", ⟨1, 2⟩)]
    ⟨.POST, "/mcp", none, none, ⟨false⟩⟩ rfl rfl

/-! ## Claim C10 — empty-string session-id header -/

/-- Claim C10 counterexample: for a header given as an array whose first
value is the empty string, `getSessionId` does NOT return "no id": arrays
are truthy in JS, so it returns `value[0]`, the empty string itself. -/
theorem empty_header_array_extraction_cex :
    getSessionId (some (.arr [""])) = some "" ∧
    getSessionId (some (.arr [""])) ≠ none := by decide

/-- Claim C10 (amended): a single empty-string header value makes
`getSessionId` return no id; an array whose first value is the empty string
makes it return the empty string itself.  In both cases the POST /mcp
handler's truthiness test sends the request down the initialize/bad-request
path, so it is never answered with the unknown-session error. -/
theorem empty_session_header_routing (table : SessionTable)
    (req : HttpRequest) (rest : List String)
    (h : req.mcpSessionId = some (.str "") ∨
         req.mcpSessionId = some (.arr ("" :: rest))) :
    getSessionId (some (.str "")) = none ∧
    getSessionId (some (.arr ("" :: rest))) = some "" ∧
    postMcp table req = postMcpNoSession table req ∧
    (postMcp table req).1
      ≠ .respond 404 (.rpcError ⟨"2.0", -32000, "Unknown session ID", true⟩)
    := by
  have hroute : postMcp table req = postMcpNoSession table req := by
    rcases h with h | h <;> simp [postMcp, getSessionId, h]
  refine ⟨rfl, rfl, hroute, ?_⟩
  rw [hroute]
  unfold postMcpNoSession
  cases hb : req.body.isInitReq <;> simp [hb]

/-- Witness for `empty_session_header_routing` on a concrete request whose
session-id header is the single empty string. -/
theorem empty_session_header_routing_witness :
    postMcp [] ⟨.POST, "/mcp", none, some (.str ""), ⟨false⟩⟩
        = postMcpNoSession [] ⟨.POST, "/mcp", none, some (.str ""), ⟨false⟩⟩ ∧
      (postMcp [] ⟨.POST, "/mcp", none, some (.str ""), ⟨false⟩⟩).1
        ≠ .respond 404
            (.rpcError ⟨"2.0", -32000, "Unknown session ID", true⟩) :=
  ⟨(empty_session_header_routing []
      ⟨.POST, "/mcp", none, some (.str ""), ⟨false⟩⟩ [] (Or.inl rfl)).2.2.1,
   (empty_session_header_routing []
      ⟨.POST, "/mcp", none, some (.str ""), ⟨false⟩⟩ [] (Or.inl rfl)).2.2.2⟩

/-! ## Claim C9 — tool adapter result shape -/

/-- Claim C9: the wrapped tool handler returns the handler's content items
with number and order preserved, each item's text preserved and its kind
marker re-tagged to "text", and the handler's error flag unchanged. -/
theorem toolAdapter_retag (r : ToolCallResult) :
    (wrappedHandlerResult r).content.length = r.content.length ∧
    (∀ i : Nat, ((wrappedHandlerResult r).content[i]?).map ToolContentItem.text
        = (r.content[i]?).map ToolContentItem.text) ∧
    (∀ item ∈ (wrappedHandlerResult r).content, item.type = "text") ∧
    (wrappedHandlerResult r).isError = r.isError := by
  refine ⟨?_, ?_, ?_, rfl⟩
  · simp [wrappedHandlerResult]
  · intro i
    simp only [wrappedHandlerResult, List.getElem?_map]
    cases r.content[i]? <;> rfl
  · intro item hitem
    simp only [wrappedHandlerResult, List.mem_map] at hitem
    rcases hitem with ⟨a, _, rfl⟩
    rfl

/-- Witness for `toolAdapter_retag` on a concrete handler result with a
non-"text" kind marker and a raised error flag. -/
theorem toolAdapter_retag_witness :
    (ToolContentItem.mk "text" "hi").type = "text" ∧
      (wrappedHandlerResult ⟨[⟨"blob", "hi"⟩], true⟩).isError = true :=
  ⟨(toolAdapter_retag ⟨[⟨"blob", "hi"⟩], true⟩).2.2.1 ⟨"text", "hi"⟩
      (by decide),
   (toolAdapter_retag ⟨[⟨"blob", "hi"⟩], true⟩).2.2.2⟩

/-! ## Claim C6 — single-shot shutdown -/

/-- Invariant of the shutdown machine: the cleanup counter never exceeds 1,
and is 0 until the shutting-down flag is set. -/
theorem shutdownStep_preserves (s : ShutdownState) (e : ShutdownEvent)
    (h1 : s.shuttingDown = false → s.cleanupRuns = 0)
    (h2 : s.cleanupRuns ≤ 1) :
    ((shutdownStep s e).shuttingDown = false →
      (shutdownStep s e).cleanupRuns = 0) ∧
    (shutdownStep s e).cleanupRuns ≤ 1 := by
  cases e with
  | trigger c =>
    by_cases hex : s.exited.isSome
    · simp only [shutdownStep, if_pos hex]; exact ⟨h1, h2⟩
    · by_cases hsd : s.shuttingDown = true
      · simp only [shutdownStep, if_neg hex, if_pos hsd]
        exact ⟨fun hc => h1 hc, h2⟩
      · simp only [shutdownStep, if_neg hex, if_neg hsd]
        have h0 : s.cleanupRuns = 0 := h1 (by simpa using hsd)
        exact ⟨by simp, by simp [h0]⟩
  | cleanupDone =>
    by_cases hex : s.exited.isSome
    · simp only [shutdownStep, if_pos hex]; exact ⟨h1, h2⟩
    · simp only [shutdownStep, if_neg hex]
      cases hpe : s.pendingExit with
      | some c => exact ⟨fun hc => h1 hc, h2⟩
      | none => exact ⟨h1, h2⟩

theorem shutdown_invariant (es : List ShutdownEvent) :
    ∀ s : ShutdownState,
      (s.shuttingDown = false → s.cleanupRuns = 0) → s.cleanupRuns ≤ 1 →
      ((es.foldl shutdownStep s).shuttingDown = false →
        (es.foldl shutdownStep s).cleanupRuns = 0) ∧
      (es.foldl shutdownStep s).cleanupRuns ≤ 1 := by
  induction es with
  | nil => intro s h1 h2; exact ⟨h1, h2⟩
  | cons e es ih =>
    intro s h1 h2
    have hstep := shutdownStep_preserves s e h1 h2
    simpa using ih (shutdownStep s e) hstep.1 hstep.2

/-- Claim C6 counterexample: a graceful trigger (code 0) starts cleanup;
before cleanup completes a fault trigger (code 1) arrives.  The process
exits with the SECOND trigger's code 1, not with the first trigger's code
0 — `process.exit(exitCode)` on the guarded path uses the current call's
argument.  Cleanup still ran exactly once. -/
theorem shutdown_second_trigger_cex :
    (runShutdown [.trigger 0, .trigger 1]).exited = some 1 ∧
    (runShutdown [.trigger 0, .trigger 1]).exited ≠ some 0 ∧
    (runShutdown [.trigger 0, .trigger 1]).cleanupRuns = 1 := by decide

/-- Claim C6 (amended): across any sequence of shutdown triggers the cleanup
routine runs at most once — only the first trigger starts it — and every
subsequent trigger exits immediately without re-running cleanup, using that
subsequent trigger's own exit code (which need not be the code chosen by
the first trigger). -/
theorem shutdown_single_cleanup (es : List ShutdownEvent) (c : Nat) :
    (runShutdown es).cleanupRuns ≤ 1 ∧
    ((runShutdown es).exited = none → (runShutdown es).shuttingDown = true →
      (shutdownStep (runShutdown es) (.trigger c)).exited = some c ∧
      (shutdownStep (runShutdown es) (.trigger c)).cleanupRuns
        = (runShutdown es).cleanupRuns) := by
  have hinv := shutdown_invariant es shutdownInit (fun _ => rfl)
    (by simp [shutdownInit])
  refine ⟨hinv.2, ?_⟩
  intro hex hsd
  simp [shutdownStep, hex, hsd]

/-- Witness for `shutdown_single_cleanup`: after a first graceful trigger a
fault trigger exits with its own code 1. -/
theorem shutdown_single_cleanup_witness :
    (shutdownStep (runShutdown [ShutdownEvent.trigger 0])
        (.trigger 1)).exited = some 1 :=
  ((shutdown_single_cleanup [ShutdownEvent.trigger 0] 1).2 (by decide)
    (by decide)).1

/-! ## Claim C7 — cleanup closes every session, then the listener -/

/-- Every session entry contributes its transport-close attempt immediately
followed by its engine-close attempt to the cleanup action sequence,
whatever the per-session failure flags. -/
theorem cleanup_actions_pair (t : SessionTable) (tOk sOk : String → Bool)
    (p : String × SessionEntry) (hp : p ∈ t) :
    ∃ l1 l2, httpCleanupActions t tOk sOk
      = l1 ++ CloseAction.closeTransport p.1 (tOk p.1)
          :: CloseAction.closeEngine p.1 (sOk p.1) :: l2 := by
  unfold httpCleanupActions
  induction t with
  | nil => cases hp
  | cons x xs ih =>
    rcases List.mem_cons.mp hp with rfl | hp'
    · exact ⟨[], xs.flatMap (fun q =>
        [CloseAction.closeTransport q.1 (tOk q.1),
         CloseAction.closeEngine q.1 (sOk q.1)]) ++ [CloseAction.closeListener],
        by simp⟩
    · rcases ih hp' with ⟨l1, l2, hin⟩
      refine ⟨[CloseAction.closeTransport x.1 (tOk x.1),
               CloseAction.closeEngine x.1 (sOk x.1)] ++ l1, l2, ?_⟩
      simp only [List.flatMap_cons, List.append_assoc]
      rw [hin]

/-- Folding `Map.delete` over a set of keys covering every entry empties the
table. -/
theorem foldl_mapDelete_nil (ks : List String) :
    ∀ t : SessionTable, (∀ p ∈ t, p.1 ∈ ks) → ks.foldl mapDelete t = [] := by
  induction ks with
  | nil =>
    intro t h
    cases t with
    | nil => rfl
    | cons p ps => exact absurd (h p (List.mem_cons_self p ps)) (by simp)
  | cons k ks ih =>
    intro t h
    simp only [List.foldl_cons]
    apply ih
    intro p hp
    have hp' : p ∈ t ∧ (!(p.1 == k)) = true := by
      simpa [mapDelete, List.mem_filter] using hp
    rcases hp' with ⟨hpt, hne⟩
    rcases List.mem_cons.mp (h p hpt) with h1 | h1
    · rw [h1] at hne; simp at hne
    · exact h1

theorem httpCleanupTable_nil (t : SessionTable) : httpCleanupTable t = [] := by
  unfold httpCleanupTable
  exact foldl_mapDelete_nil (t.map Prod.fst) t
    (fun p hp => List.mem_map_of_mem Prod.fst hp)

/-- Claim C7: the shutdown cleanup attempts, for every open session, the
transport close immediately followed by the engine close — each attempt in
its own error handler, so arbitrary per-session failures never remove any
other attempt — afterwards the HTTP listener close comes last; every
session is removed from the table; and the exit code passed by a trigger
is 0 exactly for the graceful signals SIGTERM and SIGINT, 1 for the fault
triggers. -/
theorem shutdown_cleanup_closes_all (t : SessionTable)
    (tOk sOk : String → Bool) (k : TriggerKind) :
    (∀ p ∈ t, ∃ l1 l2, httpCleanupActions t tOk sOk
        = l1 ++ CloseAction.closeTransport p.1 (tOk p.1)
            :: CloseAction.closeEngine p.1 (sOk p.1) :: l2) ∧
    (httpCleanupActions t tOk sOk).getLast? = some CloseAction.closeListener ∧
    httpCleanupTable t = [] ∧
    (triggerExitCode k = 0 ↔ (k = .sigterm ∨ k = .sigint)) := by
  refine ⟨fun p hp => cleanup_actions_pair t tOk sOk p hp, ?_,
    httpCleanupTable_nil t, ?_⟩
  · unfold httpCleanupActions
    rw [List.getLast?_concat]
  · cases k <;> simp [triggerExitCode]

/-- Witness for `shutdown_cleanup_closes_all`: with two live sessions and
every transport close failing, the second session's engine close is still
attempted. -/
theorem shutdown_cleanup_closes_all_witness :
    ∃ l1 l2,
      httpCleanupActions [("a", ⟨1, 1⟩), ("b", ⟨2, 2⟩)]
          (fun _ => false) (fun _ => true)
        = l1 ++ CloseAction.closeTransport "b" false
            :: CloseAction.closeEngine "b" true :: l2 :=
  (shutdown_cleanup_closes_all [("a", ⟨1, 1⟩), ("b", ⟨2, 2⟩)]
      (fun _ => false) (fun _ => true) .sigterm).1 ("b", ⟨2, 2⟩) (by decide)

/-! ## Claim C5 — session-table publication invariant -/

theorem keys_mapSet (t : SessionTable) (k : String) (v : SessionEntry) :
    (mapSet t k v).map Prod.fst
      = if t.any (fun p => p.1 == k) then t.map Prod.fst
        else t.map Prod.fst ++ [k] := by
  unfold mapSet
  by_cases h : t.any (fun p => p.1 == k) = true
  · rw [if_pos h, if_pos h, List.map_map]
    apply List.map_congr_left
    intro p hp
    by_cases hk : p.1 = k
    · simp [Function.comp, beq_iff_eq, hk]
    · simp [Function.comp, beq_iff_eq, hk]
  · rw [if_neg h, if_neg h, List.map_append]
    rfl

theorem nodup_keys_mapSet (t : SessionTable) (k : String) (v : SessionEntry)
    (h : (t.map Prod.fst).Nodup) : ((mapSet t k v).map Prod.fst).Nodup := by
  rw [keys_mapSet]
  by_cases hc : t.any (fun p => p.1 == k) = true
  · rw [if_pos hc]; exact h
  · rw [if_neg hc]
    have hk : k ∉ t.map Prod.fst := by
      intro hmem
      apply hc
      rcases List.mem_map.mp hmem with ⟨p, hp, hpk⟩
      exact List.any_eq_true.mpr ⟨p, hp, by simp [beq_iff_eq, hpk]⟩
    rw [List.nodup_append]
    refine ⟨h, List.nodup_singleton k, fun a ha hb => ?_⟩
    rw [List.mem_singleton] at hb
    subst hb
    exact hk ha

theorem mem_keys_mapSet (t : SessionTable) (k : String) (v : SessionEntry)
    (x : String) (hx : x ∈ (mapSet t k v).map Prod.fst) :
    x ∈ t.map Prod.fst ∨ x = k := by
  rw [keys_mapSet] at hx
  by_cases hc : t.any (fun p => p.1 == k) = true
  · rw [if_pos hc] at hx; exact Or.inl hx
  · rw [if_neg hc] at hx
    rcases List.mem_append.mp hx with h | h
    · exact Or.inl h
    · exact Or.inr (List.mem_singleton.mp h)

theorem keys_mapDelete_sublist (t : SessionTable) (k : String) :
    ((mapDelete t k).map Prod.fst).Sublist (t.map Prod.fst) :=
  List.Sublist.map Prod.fst (List.filter_sublist t)

theorem nodup_keys_sessionStep (t : SessionTable) (e : SessionEvent)
    (h : (t.map Prod.fst).Nodup) :
    ((sessionStep t e).map Prod.fst).Nodup := by
  cases e with
  | inited sid entry =>
    cases sid with
    | none => exact h
    | some s =>
      by_cases hs : s = ""
      · simp only [sessionStep, if_pos hs]; exact h
      · simp only [sessionStep, if_neg hs]; exact nodup_keys_mapSet t s entry h
  | closedCb sid =>
    cases sid with
    | none => exact h
    | some s =>
      by_cases hs : s = ""
      · simp only [sessionStep, if_pos hs]; exact h
      · simp only [sessionStep, if_neg hs]
        exact h.sublist (keys_mapDelete_sublist t s)
  | transportOnClose sid =>
    cases sid with
    | none => exact h
    | some s =>
      by_cases hs : s = ""
      · simp only [sessionStep, if_pos hs]; exact h
      · simp only [sessionStep, if_neg hs]
        exact h.sublist (keys_mapDelete_sublist t s)
  | shutdownDelete s => exact h.sublist (keys_mapDelete_sublist t s)

theorem mem_keys_sessionStep (t : SessionTable) (e : SessionEvent) (x : String)
    (hx : x ∈ (sessionStep t e).map Prod.fst) :
    x ∈ t.map Prod.fst ∨ ∃ entry, e = SessionEvent.inited (some x) entry := by
  cases e with
  | inited sid entry =>
    cases sid with
    | none => exact Or.inl hx
    | some s =>
      by_cases hs : s = ""
      · simp only [sessionStep, if_pos hs] at hx; exact Or.inl hx
      · simp only [sessionStep, if_neg hs] at hx
        rcases mem_keys_mapSet t s entry x hx with h | h
        · exact Or.inl h
        · subst h; exact Or.inr ⟨entry, rfl⟩
  | closedCb sid =>
    cases sid with
    | none => exact Or.inl hx
    | some s =>
      by_cases hs : s = ""
      · simp only [sessionStep, if_pos hs] at hx; exact Or.inl hx
      · simp only [sessionStep, if_neg hs] at hx
        exact Or.inl ((keys_mapDelete_sublist t s).subset hx)
  | transportOnClose sid =>
    cases sid with
    | none => exact Or.inl hx
    | some s =>
      by_cases hs : s = ""
      · simp only [sessionStep, if_pos hs] at hx; exact Or.inl hx
      · simp only [sessionStep, if_neg hs] at hx
        exact Or.inl ((keys_mapDelete_sublist t s).subset hx)
  | shutdownDelete s =>
    exact Or.inl ((keys_mapDelete_sublist t s).subset hx)

theorem nodup_keys_runSessionEvents (es : List SessionEvent) :
    ∀ t : SessionTable, (t.map Prod.fst).Nodup →
      ((runSessionEvents t es).map Prod.fst).Nodup := by
  induction es with
  | nil => intro t h; exact h
  | cons e es ih =>
    intro t h
    exact ih (sessionStep t e) (nodup_keys_sessionStep t e h)

theorem mem_keys_runSessionEvents (es : List SessionEvent) :
    ∀ (t : SessionTable) (x : String),
      x ∈ (runSessionEvents t es).map Prod.fst →
      x ∈ t.map Prod.fst ∨
        ∃ entry, SessionEvent.inited (some x) entry ∈ es := by
  induction es with
  | nil => intro t x hx; exact Or.inl hx
  | cons e es ih =>
    intro t x hx
    rcases ih (sessionStep t e) x hx with h | h
    · rcases mem_keys_sessionStep t e x h with h' | ⟨entry, rfl⟩
      · exact Or.inl h'
      · exact Or.inr ⟨entry, List.mem_cons_self _ _⟩
    · rcases h with ⟨entry, hmem⟩
      exact Or.inr ⟨entry, List.mem_cons_of_mem e hmem⟩

/-- Claim C5: starting from the empty table and following any interleaving
of the source's four table-mutating callbacks, the table never holds two
entries for the same id, and every id present in the table was reported by
an `onsessioninitialized` callback carrying that id — the only insertion
site — so no session is visible to lookup before the transport reports its
id as assigned. -/
theorem sessionTable_publication (es : List SessionEvent) :
    ((runSessionEvents [] es).map Prod.fst).Nodup ∧
    ∀ sid, sid ∈ (runSessionEvents [] es).map Prod.fst →
      ∃ entry, SessionEvent.inited (some sid) entry ∈ es := by
  constructor
  · exact nodup_keys_runSessionEvents es [] (by simp)
  · intro sid hsid
    rcases mem_keys_runSessionEvents es [] sid hsid with h | h
    · simp at h
    · exact h

/-- Witness for `sessionTable_publication` on a one-event trace. -/
theorem sessionTable_publication_witness :
    ∃ entry, SessionEvent.inited (some "s1") entry
        ∈ [SessionEvent.inited (some "s1") ⟨1, 2⟩] :=
  (sessionTable_publication [SessionEvent.inited (some "s1") ⟨1, 2⟩]).2 "s1"
    (by decide)

end McpWp
